import Mathlib

/-!
Shallow embedding of `src/hooks/ralph_loop_engine.py`, the phase-transition
engine of the Ralph loop, together with the parts of its environment it
observes: the contents of the JSON config file, the JSON state file, the
prompt text files, the `GEMINI_PROJECT_DIR` environment variable, and an
oracle reporting success or failure of external shell commands.

Python dicts holding loaded JSON are modelled as association lists in
insertion order, with Python's `dict` get/set semantics (`json.load`
produces dicts with distinct keys; updating an existing key keeps its
position, a new key is appended, matching insertion-order serialization
by `json.dump`).  JSON numbers are modelled as integers; no behaviour
relevant here involves fractional values.  An exception the script does
not catch (e.g. `json.JSONDecodeError` from a malformed config file, or
`TypeError` from `state.get("iteration", 1) + 1` on a non-numeric value)
is modelled as an explicit `raised` outcome.
-/

namespace Ralph

/-- JSON values as produced by `json.load`. -/
inductive Json where
  | null
  | bool (b : Bool)
  | num (n : Int)
  | str (s : String)
  | arr (elems : List Json)
  | obj (fields : List (String × Json))

/-- A loaded JSON object (a Python `dict`), as an association list of its
key/value pairs in insertion order. -/
abbrev StateDict := List (String × Json)

/-- Python `dict.get(k)` / `dict[k]`: value of key `k`, if present. -/
def dictGet (d : StateDict) (k : String) : Option Json :=
  match d with
  | [] => none
  | (k1, v) :: rest => if k1 = k then some v else dictGet rest k

/-- Python `dict[k] = v`: update an existing key in place (keeping its
position), or append a new key at the end. -/
def dictSet (d : StateDict) (k : String) (v : Json) : StateDict :=
  match d with
  | [] => [(k, v)]
  | (k1, v1) :: rest => if k1 = k then (k1, v) :: rest else (k1, v1) :: dictSet rest k v

/-- The configuration record read from `.gemini/ralph/config.json`, at the
typed level at which `main` consumes it via `config.get`:
`phases` holds `config.get("phases", [])` (an absent key is the empty
list), `state_file`/`prompts_dir`/`cleanup_command` are `none` when the
key is absent, and `phase_scripts` holds `config.get("phase_scripts", {})`
as an association list. -/
structure LoopConfig where
  phases : List String
  state_file : Option String
  prompts_dir : Option String
  phase_scripts : List (String × String)
  cleanup_command : Option String

/-- Content of a JSON file on disk, as seen through `open` + `json.load`:
absent (`FileNotFoundError`), malformed (`json.JSONDecodeError`), or a
parsed configuration record. -/
inductive ConfigFile where
  | absent
  | malformed
  | parsed (config : LoopConfig)

/-- Content of the state file on disk: absent, malformed JSON, or a parsed
dict. -/
inductive StateFile where
  | absent
  | malformed
  | parsed (state : StateDict)

/-- The environment a single invocation of the engine observes:
the `GEMINI_PROJECT_DIR` environment variable, the filesystem (JSON files
addressed by path for config and state, text files for prompts), and an
oracle giving each shell command's success. -/
structure Env where
  geminiProjectDir : Option String
  configFs : String → ConfigFile
  stateFs : String → StateFile
  promptFs : String → Option String
  cmdOk : String → Bool

/-- The helper `run_command` (lines 10-20): an absent or empty command is vacuously
successful; otherwise the ambient shell decides. -/
def run_command (cmdOk : String → Bool) (command : Option String) : Bool :=
  match command with
  | none => true
  | some c => if c = "" then true else cmdOk c

/-- Python truthiness of an optional string (`if cleanup_cmd:`). -/
def truthyOpt (s : Option String) : Bool :=
  match s with
  | none => false
  | some c => c ≠ ""

/-- Line 24: `CONFIG_PATH = os.path.join(".gemini", "ralph", "config.json")`. -/
def CONFIG_PATH : String := ".gemini/ralph/config.json"

/-- Line 34: `STATE_FILE = config.get("state_file", os.path.join(".gemini", "ralph", "state.json"))`. -/
def stateFilePath (config : LoopConfig) : String :=
  config.state_file.getD ".gemini/ralph/state.json"

/-- Line 35: `PROMPTS_DIR = config.get("prompts_dir", os.path.join(".gemini", "ralph", "prompts"))`. -/
def promptsDirPath (config : LoopConfig) : String :=
  config.prompts_dir.getD ".gemini/ralph/prompts"

/-- Python `phases.index(current_phase)` with `ValueError` mapped to `-1`
(lines 61-65).  `index` compares with `==`; a value that is not a string
never equals an element of a list of strings, so it also yields `-1`. -/
def listIndex? (l : List String) (x : String) : Option Nat :=
  match l with
  | [] => none
  | a :: rest => if a = x then some 0 else (listIndex? rest x).map (· + 1)

/-- The value `current_idx` as computed at lines 61-65. -/
def phaseIndex (phases : List String) (current_phase : Option Json) : Int :=
  match current_phase with
  | some (Json.str p) =>
    match listIndex? phases p with
    | some i => (i : Int)
    | none => -1
  | _ => -1

/-- Lines 84 and 94: `state["iteration"] = state.get("iteration", 1) + 1`.
An absent key defaults to `1`; a Python `bool` is an `int` (`True + 1 = 2`);
any other value makes `+ 1` raise `TypeError`, modelled as `none`. -/
def bumpIteration (state : StateDict) : Option StateDict :=
  match dictGet state "iteration" with
  | none => some (dictSet state "iteration" (Json.num 2))
  | some (Json.num n) => some (dictSet state "iteration" (Json.num (n + 1)))
  | some (Json.bool b) => some (dictSet state "iteration" (Json.num ((if b then 1 else 0) + 1)))
  | some _ => none

/-- Outcome of the transition decision (lines 47-94), before the state is
persisted and the payload assembled. -/
inductive CoreResult where
  | notTriggered
  | noPhases
  | cleanupFailed
  | typeError
  | proceed (next_phase : String) (state1 : StateDict)

/-- Lines 47-94 of `main`: the status gate, the empty-phases check, the
index lookup, and the FAILED/COMPLETED branch that picks the next phase
and bumps the iteration counter. -/
def transition_core (cmdOk : String → Bool) (config : LoopConfig) (state : StateDict) :
    CoreResult :=
  match dictGet state "status" with
  | some (Json.str current_status) =>
    if current_status = "COMPLETED" ∨ current_status = "FAILED" then
      let phases := config.phases
      let current_phase := dictGet state "phase"
      if phases.isEmpty then CoreResult.noPhases
      else
        let current_idx : Int := phaseIndex phases current_phase
        if current_status = "FAILED" then
          let cleanup_cmd := config.cleanup_command
          if truthyOpt cleanup_cmd ∧ run_command cmdOk cleanup_cmd = false then
            CoreResult.cleanupFailed
          else
            let next_phase := phases.headD ""
            match bumpIteration state with
            | none => CoreResult.typeError
            | some state1 => CoreResult.proceed next_phase state1
        else
          let next_idx : Nat := ((current_idx + 1) % (phases.length : Int)).toNat
          let next_phase := phases.getD next_idx ""
          if next_idx = 0 then
            match bumpIteration state with
            | none => CoreResult.typeError
            | some state1 => CoreResult.proceed next_phase state1
          else
            CoreResult.proceed next_phase state
    else CoreResult.notTriggered
  | _ => CoreResult.notTriggered

/-- The JSON payload written to standard output (lines 135-140). -/
structure Response where
  clearContext : Bool
  decision : String
  reason : String
  systemMessage : String

/-- How `state.get('iteration', 1)` renders inside the f-string at
line 139.  Rendering of composite values (`arr`/`obj`) is abstracted; it
is only reachable when the loaded state carries a composite `iteration`
value and no bump occurred. -/
def displayIteration (state : StateDict) : String :=
  match dictGet state "iteration" with
  | some (Json.num n) => toString n
  | some (Json.str s) => s
  | some (Json.bool b) => if b then "True" else "False"
  | some Json.null => "None"
  | some _ => "<composite>"
  | none => "1"

/-- Observable outcome of one invocation of `main`: a silent return (no
write, no print, no payload), a printed-error return (no write, no
payload), an uncaught Python exception, or a completed transition that
writes `newState` to the state file at `path` and emits `response` on
standard output. -/
inductive EngineResult where
  | silentReturn
  | errorReturn (msg : String)
  | raised (exn : String)
  | transition (path : String) (newState : StateDict) (response : Response)

/-- The error printed at line 58. -/
def noPhasesMsg : String := "[Ralph Engine] Error: No phases defined in .gemini/ralph/config.json"

/-- The error printed at line 78. -/
def cleanupFailedMsg : String := "[Ralph Engine] Cleanup failed. Aborting loop."

/-- Lines 96-145: run the optional pre-phase script (its failure is only
logged -- the transition continues either way), mutate and persist the
state, resolve the prompt text (with the placeholder of line 127 when the
prompt file is missing), and assemble the output payload. -/
def finishTransition (env : Env) (config : LoopConfig) (next_phase : String)
    (state1 : StateDict) : EngineResult :=
  let _scriptOk :=
    match List.lookup next_phase config.phase_scripts with
    | some script => run_command env.cmdOk (some script)
    | none => true
  let state2 := dictSet (dictSet state1 "phase" (Json.str next_phase)) "status" (Json.str "ACTIVE")
  let prompt_path := promptsDirPath config ++ "/" ++ next_phase.toLower ++ ".md"
  let next_prompt_content :=
    match env.promptFs prompt_path with
    | some content => content
    | none =>
      "Error: Prompt file '" ++ prompt_path ++ "' not found for phase " ++ next_phase ++ "."
  let full_prompt := "[" ++ next_phase ++ " PHASE]\n\n" ++ next_prompt_content
  let response : Response :=
    ⟨true, "deny", full_prompt,
      "Transitioning to " ++ next_phase ++ " phase (Iteration " ++
        displayIteration state2 ++ ")"⟩
  EngineResult.transition (stateFilePath config) state2 response

/-- The engine entry point `main` (lines 22-145).  Loading the config catches only
`FileNotFoundError` (lines 25-30), so malformed config content raises;
loading the state checks existence first and catches only
`json.JSONDecodeError` (lines 38-45).  `PROJECT_DIR` is read from the
environment at line 33 and never used afterwards. -/
def main (env : Env) : EngineResult :=
  match env.configFs CONFIG_PATH with
  | ConfigFile.absent => EngineResult.silentReturn
  | ConfigFile.malformed => EngineResult.raised "json.JSONDecodeError"
  | ConfigFile.parsed config =>
    let _PROJECT_DIR := env.geminiProjectDir.getD "."
    match env.stateFs (stateFilePath config) with
    | StateFile.absent => EngineResult.silentReturn
    | StateFile.malformed => EngineResult.silentReturn
    | StateFile.parsed state =>
      match transition_core env.cmdOk config state with
      | CoreResult.notTriggered => EngineResult.silentReturn
      | CoreResult.noPhases => EngineResult.errorReturn noPhasesMsg
      | CoreResult.cleanupFailed => EngineResult.errorReturn cleanupFailedMsg
      | CoreResult.typeError => EngineResult.raised "TypeError"
      | CoreResult.proceed next_phase state1 => finishTransition env config next_phase state1

/-- Whether an invocation outcome wrote the state file. -/
def writesStateFile (r : EngineResult) : Bool :=
  match r with
  | EngineResult.transition _ _ _ => true
  | _ => false

/-- Whether an invocation outcome emitted a payload on standard output. -/
def emitsPayload (r : EngineResult) : Bool :=
  match r with
  | EngineResult.transition _ _ _ => true
  | _ => false

/-- A concrete three-phase configuration used by the witnesses. -/
def demoConfig : LoopConfig := ⟨["PLAN", "BUILD", "TEST"], none, none, [], none⟩

/-- A concrete loaded state: the last phase just completed at iteration 3. -/
def demoState : StateDict :=
  [("status", Json.str "COMPLETED"), ("phase", Json.str "TEST"), ("iteration", Json.num 3),
   ("history", Json.arr []), ("metrics", Json.obj [])]

/-- A concrete loaded state whose status is ACTIVE. -/
def demoActiveState : StateDict :=
  [("status", Json.str "ACTIVE"), ("phase", Json.str "PLAN"), ("iteration", Json.num 1)]

/-- A concrete loaded state whose status is FAILED. -/
def demoFailedState : StateDict :=
  [("status", Json.str "FAILED"), ("phase", Json.str "BUILD"), ("iteration", Json.num 2)]

/-- A concrete COMPLETED state whose phase does not occur in the config. -/
def demoUnknownState : StateDict :=
  [("status", Json.str "COMPLETED"), ("phase", Json.str "UNKNOWN"), ("iteration", Json.num 1)]

/-- A configuration that also carries a cleanup command. -/
def demoFailConfig : LoopConfig :=
  ⟨["PLAN", "BUILD", "TEST"], none, none, [], some "./cleanup.sh"⟩

/-- A configuration whose phases list is empty. -/
def emptyPhasesConfig : LoopConfig := ⟨[], none, none, [], none⟩

/-- The two-phase configuration of the unknown-phase scenario. -/
def abConfig : LoopConfig := ⟨["A", "B"], none, none, [], none⟩

/-- The state `demoState` after its iteration counter was bumped to 4. -/
def demoBumpedState : StateDict :=
  [("status", Json.str "COMPLETED"), ("phase", Json.str "TEST"), ("iteration", Json.num 4),
   ("history", Json.arr []), ("metrics", Json.obj [])]

/-- An environment holding the given config file content at the conventional config path, the given state file content at the conventional state path, no prompt files, and a fixed outcome for every shell command. -/
def mkDemoEnv (cf : ConfigFile) (sf : StateFile) (ok : Bool) : Env :=
  ⟨none,
   fun p => if p = CONFIG_PATH then cf else ConfigFile.absent,
   fun p => if p = ".gemini/ralph/state.json" then sf else StateFile.absent,
   fun _ => none,
   fun _ => ok⟩

/-- An environment whose `GEMINI_PROJECT_DIR` is `d`, with an ACTIVE state at the conventional working-directory-relative state path and a COMPLETED state at the path that a project-root override would resolve. -/
def overrideEnv (d : Option String) : Env :=
  ⟨d,
   fun p => if p = CONFIG_PATH then ConfigFile.parsed demoConfig else ConfigFile.absent,
   fun p => if p = ".gemini/ralph/state.json" then StateFile.parsed demoActiveState
     else if p = "/proj/.gemini/ralph/state.json" then StateFile.parsed demoState
     else StateFile.absent,
   fun _ => none,
   fun _ => true⟩

/-! ## Helper lemmas about the dict model -/

theorem dictGet_dictSet_self (d : StateDict) (k : String) (v : Json) :
    dictGet (dictSet d k v) k = some v := by
  induction d with
  | nil => simp [dictGet, dictSet]
  | cons hd tl ih =>
    obtain ⟨k1, v1⟩ := hd
    by_cases h : k1 = k <;> simp [dictGet, dictSet, h, ih]

theorem dictGet_dictSet_ne (d : StateDict) (k k2 : String) (v : Json) (h : k2 ≠ k) :
    dictGet (dictSet d k v) k2 = dictGet d k2 := by
  induction d with
  | nil =>
    have h2 : k ≠ k2 := fun hh => h hh.symm
    simp [dictGet, dictSet, h2]
  | cons hd tl ih =>
    obtain ⟨k1, v1⟩ := hd
    by_cases h1 : k1 = k
    · simp [dictGet, dictSet, h1, Ne.symm h]
    · by_cases h2 : k1 = k2 <;> simp [dictGet, dictSet, h1, h2, h, ih]

theorem bumpIteration_num (state : StateDict) (it : Int)
    (h : dictGet state "iteration" = some (Json.num it)) :
    bumpIteration state = some (dictSet state "iteration" (Json.num (it + 1))) := by
  simp [bumpIteration, h]

theorem bumpIteration_preserves (state st1 : StateDict)
    (h : bumpIteration state = some st1) (k : String) (hk : k ≠ "iteration") :
    dictGet st1 k = dictGet state k := by
  unfold bumpIteration at h
  cases hit : dictGet state "iteration" with
  | none =>
    rw [hit] at h
    cases h
    exact dictGet_dictSet_ne state "iteration" k _ hk
  | some j =>
    rw [hit] at h
    cases j with
    | num n =>
      cases h
      exact dictGet_dictSet_ne state "iteration" k _ hk
    | bool b =>
      cases h
      exact dictGet_dictSet_ne state "iteration" k _ hk
    | null => cases h
    | str s => cases h
    | arr es => cases h
    | obj fs => cases h

/-! ## Helper lemmas about the Python list index -/

theorem listIndex?_of_nodup (l : List String) (hn : l.Nodup) (i : Nat) (hi : i < l.length) :
    listIndex? l l[i] = some i := by
  induction l generalizing i with
  | nil => simp at hi
  | cons a rest ih =>
    cases i with
    | zero => simp [listIndex?]
    | succ j =>
      have hj : j < rest.length := by simpa using hi
      have ha : a ≠ rest[j] := by
        intro hEq
        have hm : rest[j] ∈ rest := List.getElem_mem hj
        rw [← hEq] at hm
        exact (List.nodup_cons.mp hn).1 hm
      have ihj := ih (List.nodup_cons.mp hn).2 j hj
      simp [listIndex?, ha, ihj]

theorem listIndex?_eq_none (l : List String) (x : String) (hx : x ∉ l) :
    listIndex? l x = none := by
  induction l with
  | nil => rfl
  | cons a rest ih =>
    have h1 : a ≠ x := fun h => hx (h ▸ List.mem_cons_self a rest)
    simp [listIndex?, h1, ih (fun h => hx (List.mem_cons_of_mem a h))]

theorem phaseIndex_get (phases : List String) (hn : phases.Nodup) (i : Nat)
    (hi : i < phases.length) :
    phaseIndex phases (some (Json.str phases[i])) = (i : Int) := by
  simp [phaseIndex, listIndex?_of_nodup phases hn i hi]

theorem phaseIndex_not_mem (phases : List String) (q : String) (hq : q ∉ phases) :
    phaseIndex phases (some (Json.str q)) = -1 := by
  simp [phaseIndex, listIndex?_eq_none phases q hq]

/-! ## Arithmetic helpers for the cyclic index -/

theorem toNat_int_succ_mod (i n : Nat) :
    (((i : Int) + 1) % (n : Int)).toNat = (i + 1) % n := by
  have h1 : ((i : Int) + 1) = ((i + 1 : Nat) : Int) := by push_cast; ring
  rw [h1, ← Int.natCast_mod, Int.toNat_natCast]

theorem succ_mod_eq (i n : Nat) (h : i < n) :
    (i + 1) % n = if i + 1 = n then 0 else i + 1 := by
  by_cases hc : i + 1 = n
  · simp [hc, Nat.mod_self]
  · have hlt : i + 1 < n := by omega
    simp [hc, Nat.mod_eq_of_lt hlt]

/-! ## Characterisation of the transition decision -/

theorem transition_core_completed (cmdOk : String → Bool) (config : LoopConfig)
    (state : StateDict) (i : Nat) (it : Int)
    (hn : config.phases.Nodup) (hi : i < config.phases.length)
    (hstatus : dictGet state "status" = some (Json.str "COMPLETED"))
    (hphase : dictGet state "phase" = some (Json.str (config.phases[i])))
    (hit : dictGet state "iteration" = some (Json.num it)) :
    transition_core cmdOk config state =
      CoreResult.proceed (config.phases.getD ((i + 1) % config.phases.length) "")
        (if i + 1 = config.phases.length
          then dictSet state "iteration" (Json.num (it + 1)) else state) := by
  have hne : config.phases.isEmpty = false := by
    cases hp : config.phases with
    | nil => rw [hp] at hi; simp at hi
    | cons a l => rfl
  simp only [transition_core, hstatus, hphase, hne]
  rw [phaseIndex_get config.phases hn i hi]
  rw [toNat_int_succ_mod i config.phases.length]
  rw [succ_mod_eq i config.phases.length hi]
  by_cases hw : i + 1 = config.phases.length
  · simp only [hw, if_pos rfl]
    rw [bumpIteration_num state it hit]
    simp
  · simp only [if_neg hw]
    simp [hw]

theorem transition_core_failed (cmdOk : String → Bool) (config : LoopConfig)
    (state : StateDict) (it : Int)
    (hne : config.phases.isEmpty = false)
    (hstatus : dictGet state "status" = some (Json.str "FAILED"))
    (hclean : truthyOpt config.cleanup_command = false ∨
      run_command cmdOk config.cleanup_command = true)
    (hit : dictGet state "iteration" = some (Json.num it)) :
    transition_core cmdOk config state =
      CoreResult.proceed (config.phases.headD "")
        (dictSet state "iteration" (Json.num (it + 1))) := by
  have hguard : ¬ (truthyOpt config.cleanup_command ∧
      run_command cmdOk config.cleanup_command = false) := by
    rcases hclean with h | h <;> simp [h]
  simp only [transition_core, hstatus, hne]
  rw [bumpIteration_num state it hit]
  simp [hguard]

theorem transition_core_cleanup_failed (cmdOk : String → Bool) (config : LoopConfig)
    (state : StateDict) (c : String)
    (hne : config.phases.isEmpty = false)
    (hstatus : dictGet state "status" = some (Json.str "FAILED"))
    (hcmd : config.cleanup_command = some c) (hc : c ≠ "") (hfail : cmdOk c = false) :
    transition_core cmdOk config state = CoreResult.cleanupFailed := by
  simp [transition_core, hstatus, hne, hcmd, truthyOpt, run_command, hc, hfail]

theorem transition_core_not_triggered (cmdOk : String → Bool) (config : LoopConfig)
    (state : StateDict)
    (h1 : dictGet state "status" ≠ some (Json.str "COMPLETED"))
    (h2 : dictGet state "status" ≠ some (Json.str "FAILED")) :
    transition_core cmdOk config state = CoreResult.notTriggered := by
  cases hst : dictGet state "status" with
  | none => simp [transition_core, hst]
  | some j =>
    cases j with
    | str s =>
      have hs1 : s ≠ "COMPLETED" := by rintro rfl; exact h1 hst
      have hs2 : s ≠ "FAILED" := by rintro rfl; exact h2 hst
      simp [transition_core, hst, hs1, hs2]
    | null => simp [transition_core, hst]
    | bool b => simp [transition_core, hst]
    | num n => simp [transition_core, hst]
    | arr es => simp [transition_core, hst]
    | obj fs => simp [transition_core, hst]

theorem transition_core_no_phases (cmdOk : String → Bool) (config : LoopConfig)
    (state : StateDict) (s : String)
    (hstatus : dictGet state "status" = some (Json.str s))
    (hs : s = "COMPLETED" ∨ s = "FAILED")
    (hp : config.phases = []) :
    transition_core cmdOk config state = CoreResult.noPhases := by
  rcases hs with rfl | rfl <;> simp [transition_core, hstatus, hp]

theorem transition_core_proceed_preserves (cmdOk : String → Bool) (config : LoopConfig)
    (state : StateDict) (np : String) (st1 : StateDict)
    (h : transition_core cmdOk config state = CoreResult.proceed np st1)
    (k : String) (hk : k ≠ "iteration") :
    dictGet st1 k = dictGet state k := by
  unfold transition_core at h
  cases hst : dictGet state "status" with
  | none => rw [hst] at h; cases h
  | some j =>
    rw [hst] at h
    cases j with
    | null => cases h
    | bool b => cases h
    | num n => cases h
    | arr es => cases h
    | obj fs => cases h
    | str s =>
      by_cases hs1 : s = "COMPLETED" ∨ s = "FAILED"
      · simp only [if_pos hs1] at h
        by_cases hemp : config.phases.isEmpty = true
        · simp only [if_pos hemp] at h; cases h
        · simp only [if_neg hemp] at h
          by_cases hsf : s = "FAILED"
          · simp only [if_pos hsf] at h
            by_cases hcl : truthyOpt config.cleanup_command = true ∧
                run_command cmdOk config.cleanup_command = false
            · simp only [if_pos hcl] at h; cases h
            · simp only [if_neg hcl] at h
              cases hbump : bumpIteration state with
              | none => rw [hbump] at h; cases h
              | some s1 =>
                rw [hbump] at h
                cases h
                exact bumpIteration_preserves state _ hbump k hk
          · simp only [if_neg hsf] at h
            by_cases hidx : ((phaseIndex config.phases (dictGet state "phase") + 1) %
                (config.phases.length : Int)).toNat = 0
            · simp only [if_pos hidx] at h
              cases hbump : bumpIteration state with
              | none => rw [hbump] at h; cases h
              | some s1 =>
                rw [hbump] at h
                cases h
                exact bumpIteration_preserves state _ hbump k hk
            · simp only [if_neg hidx] at h
              cases h
              rfl
      · simp only [if_neg hs1] at h; cases h

theorem transition_core_completed_unknown (cmdOk : String → Bool) (config : LoopConfig)
    (state : StateDict) (q : String) (it : Int)
    (hne : config.phases.isEmpty = false)
    (hstatus : dictGet state "status" = some (Json.str "COMPLETED"))
    (hphase : dictGet state "phase" = some (Json.str q))
    (hq : q ∉ config.phases)
    (hit : dictGet state "iteration" = some (Json.num it)) :
    transition_core cmdOk config state =
      CoreResult.proceed (config.phases.getD 0 "")
        (dictSet state "iteration" (Json.num (it + 1))) := by
  simp only [transition_core, hstatus, hphase, hne]
  rw [phaseIndex_not_mem config.phases q hq]
  rw [bumpIteration_num state it hit]
  simp

theorem main_eq_finish (env : Env) (config : LoopConfig) (state : StateDict)
    (np : String) (st1 : StateDict)
    (hc : env.configFs CONFIG_PATH = ConfigFile.parsed config)
    (hs : env.stateFs (stateFilePath config) = StateFile.parsed state)
    (hcore : transition_core env.cmdOk config state = CoreResult.proceed np st1) :
    main env = finishTransition env config np st1 := by
  unfold main
  simp only [hc, hs, hcore]

theorem finishTransition_shape (env : Env) (config : LoopConfig) (np : String)
    (st1 : StateDict) :
    ∃ resp, finishTransition env config np st1 =
      EngineResult.transition (stateFilePath config)
        (dictSet (dictSet st1 "phase" (Json.str np)) "status" (Json.str "ACTIVE")) resp :=
  ⟨_, rfl⟩

/-! ## The claims -/

/-- Claim C1: for every config whose phases list holds `pi` at index `i` (phases distinct, as the configuration contract requires) and every loaded state with status COMPLETED, phase `pi` and a numeric iteration, one invocation persists phase `p((i+1) mod n)` and status ACTIVE, and increments the iteration by exactly 1 if and only if `i = n - 1`. -/
theorem claim1_completed_cycle (env : Env) (config : LoopConfig) (state : StateDict)
    (i : Nat) (it : Int)
    (hc : env.configFs CONFIG_PATH = ConfigFile.parsed config)
    (hs : env.stateFs (stateFilePath config) = StateFile.parsed state)
    (hn : config.phases.Nodup) (hi : i < config.phases.length)
    (hstatus : dictGet state "status" = some (Json.str "COMPLETED"))
    (hphase : dictGet state "phase" = some (Json.str (config.phases[i])))
    (hit : dictGet state "iteration" = some (Json.num it)) :
    ∃ st2 resp, main env = EngineResult.transition (stateFilePath config) st2 resp ∧
      dictGet st2 "phase" =
        some (Json.str (config.phases.getD ((i + 1) % config.phases.length) "")) ∧
      dictGet st2 "status" = some (Json.str "ACTIVE") ∧
      dictGet st2 "iteration" =
        some (Json.num (if i = config.phases.length - 1 then it + 1 else it)) := by
  have hcore := transition_core_completed env.cmdOk config state i it hn hi hstatus hphase hit
  have hmain := main_eq_finish env config state _ _ hc hs hcore
  obtain ⟨resp, hfin⟩ := finishTransition_shape env config
    (config.phases.getD ((i + 1) % config.phases.length) "")
    (if i + 1 = config.phases.length
      then dictSet state "iteration" (Json.num (it + 1)) else state)
  refine ⟨_, resp, hmain.trans hfin, ?_, ?_, ?_⟩
  · rw [dictGet_dictSet_ne _ _ _ _ (by decide), dictGet_dictSet_self]
  · rw [dictGet_dictSet_self]
  · rw [dictGet_dictSet_ne _ _ _ _ (by decide), dictGet_dictSet_ne _ _ _ _ (by decide)]
    have hiff : (i = config.phases.length - 1) ↔ (i + 1 = config.phases.length) := by omega
    by_cases hw : i + 1 = config.phases.length
    · simp [if_pos hw, if_pos (hiff.mpr hw), dictGet_dictSet_self]
    · simp [if_neg hw, if_neg (fun hh => hw (hiff.mp hh)), hit]

/-- Witness for claim C1 at the concrete scenario of the spec: phases PLAN/BUILD/TEST, state phase TEST, status COMPLETED, iteration 3. -/
theorem claim1_witness :
    ∃ st2 resp,
      main (mkDemoEnv (ConfigFile.parsed demoConfig) (StateFile.parsed demoState) true) =
        EngineResult.transition (stateFilePath demoConfig) st2 resp ∧
      dictGet st2 "phase" =
        some (Json.str (demoConfig.phases.getD ((2 + 1) % demoConfig.phases.length) "")) ∧
      dictGet st2 "status" = some (Json.str "ACTIVE") ∧
      dictGet st2 "iteration" =
        some (Json.num (if 2 = demoConfig.phases.length - 1 then 3 + 1 else 3)) :=
  claim1_completed_cycle
    (mkDemoEnv (ConfigFile.parsed demoConfig) (StateFile.parsed demoState) true)
    demoConfig demoState 2 3 rfl rfl (by decide) (by decide) rfl rfl rfl

/-- Claim C2: for every loaded state with status FAILED, if the configured cleanup command is absent (not truthy) or its execution reports success, one invocation persists phase `phases[0]` and status ACTIVE and increments the iteration by exactly 1, regardless of which phase the state was in before. -/
theorem claim2_failed_recovery (env : Env) (config : LoopConfig) (state : StateDict)
    (it : Int) (p0 : String) (rest : List String)
    (hc : env.configFs CONFIG_PATH = ConfigFile.parsed config)
    (hs : env.stateFs (stateFilePath config) = StateFile.parsed state)
    (hps : config.phases = p0 :: rest)
    (hstatus : dictGet state "status" = some (Json.str "FAILED"))
    (hclean : truthyOpt config.cleanup_command = false ∨
      run_command env.cmdOk config.cleanup_command = true)
    (hit : dictGet state "iteration" = some (Json.num it)) :
    ∃ st2 resp, main env = EngineResult.transition (stateFilePath config) st2 resp ∧
      dictGet st2 "phase" = some (Json.str p0) ∧
      dictGet st2 "status" = some (Json.str "ACTIVE") ∧
      dictGet st2 "iteration" = some (Json.num (it + 1)) := by
  have hne : config.phases.isEmpty = false := by rw [hps]; rfl
  have hcore := transition_core_failed env.cmdOk config state it hne hstatus hclean hit
  have hmain := main_eq_finish env config state _ _ hc hs hcore
  obtain ⟨resp, hfin⟩ :=
    finishTransition_shape env config (config.phases.headD "")
      (dictSet state "iteration" (Json.num (it + 1)))
  refine ⟨_, resp, hmain.trans hfin, ?_, ?_, ?_⟩
  · rw [dictGet_dictSet_ne _ _ _ _ (by decide), dictGet_dictSet_self]
    simp [hps]
  · rw [dictGet_dictSet_self]
  · rw [dictGet_dictSet_ne _ _ _ _ (by decide), dictGet_dictSet_ne _ _ _ _ (by decide),
      dictGet_dictSet_self]

/-- Witness for claim C2: no cleanup command configured, state phase BUILD, status FAILED, iteration 2. -/
theorem claim2_witness :
    ∃ st2 resp,
      main (mkDemoEnv (ConfigFile.parsed demoConfig) (StateFile.parsed demoFailedState) true) =
        EngineResult.transition (stateFilePath demoConfig) st2 resp ∧
      dictGet st2 "phase" = some (Json.str "PLAN") ∧
      dictGet st2 "status" = some (Json.str "ACTIVE") ∧
      dictGet st2 "iteration" = some (Json.num (2 + 1)) :=
  claim2_failed_recovery
    (mkDemoEnv (ConfigFile.parsed demoConfig) (StateFile.parsed demoFailedState) true)
    demoConfig demoFailedState 2 "PLAN" ["BUILD", "TEST"] rfl rfl rfl rfl (Or.inl rfl) rfl

/-- Claim C3: for every loaded state with status FAILED, if the configured cleanup command is present (truthy) and its execution reports failure, the invocation aborts the transition: the state file is not written (so its content is unchanged) and no payload is emitted, only the abort message is printed. -/
theorem claim3_cleanup_failure_aborts (env : Env) (config : LoopConfig) (state : StateDict)
    (c : String)
    (hc : env.configFs CONFIG_PATH = ConfigFile.parsed config)
    (hs : env.stateFs (stateFilePath config) = StateFile.parsed state)
    (hne : config.phases ≠ [])
    (hstatus : dictGet state "status" = some (Json.str "FAILED"))
    (hcmd : config.cleanup_command = some c) (hcne : c ≠ "")
    (hfail : env.cmdOk c = false) :
    main env = EngineResult.errorReturn cleanupFailedMsg ∧
    writesStateFile (main env) = false ∧ emitsPayload (main env) = false := by
  have hne2 : config.phases.isEmpty = false := by
    cases hp : config.phases with
    | nil => exact absurd hp hne
    | cons a l => rfl
  have hcore := transition_core_cleanup_failed env.cmdOk config state c hne2 hstatus hcmd
    hcne hfail
  have hmain : main env = EngineResult.errorReturn cleanupFailedMsg := by
    unfold main; simp only [hc, hs, hcore]
  exact ⟨hmain, by rw [hmain]; rfl, by rw [hmain]; rfl⟩

/-- Witness for claim C3: a cleanup command is configured and every command fails. -/
theorem claim3_witness :
    main (mkDemoEnv (ConfigFile.parsed demoFailConfig)
        (StateFile.parsed demoFailedState) false) =
      EngineResult.errorReturn cleanupFailedMsg ∧
    writesStateFile (main (mkDemoEnv (ConfigFile.parsed demoFailConfig)
      (StateFile.parsed demoFailedState) false)) = false ∧
    emitsPayload (main (mkDemoEnv (ConfigFile.parsed demoFailConfig)
      (StateFile.parsed demoFailedState) false)) = false :=
  claim3_cleanup_failure_aborts
    (mkDemoEnv (ConfigFile.parsed demoFailConfig) (StateFile.parsed demoFailedState) false)
    demoFailConfig demoFailedState "./cleanup.sh" rfl rfl (by decide) rfl rfl (by decide) rfl

/-- Counterexample to claim C4 as stated: with a malformed configuration file the invocation raises `json.JSONDecodeError` instead of being a silent no-op. -/
theorem claim4_counterexample :
    main (mkDemoEnv ConfigFile.malformed StateFile.absent true) =
      EngineResult.raised "json.JSONDecodeError" ∧
    main (mkDemoEnv ConfigFile.malformed StateFile.absent true) ≠
      EngineResult.silentReturn :=
  ⟨rfl, fun h => EngineResult.noConfusion h⟩

/-- Claim C4, amended: if the configuration file is absent, an invocation is a silent no-op; but if the configuration file exists with malformed content, `json.JSONDecodeError` propagates out of the invocation, because lines 25-30 catch only `FileNotFoundError`. -/
theorem claim4_amended_config_handling (env : Env) :
    (env.configFs CONFIG_PATH = ConfigFile.absent → main env = EngineResult.silentReturn) ∧
    (env.configFs CONFIG_PATH = ConfigFile.malformed →
      main env = EngineResult.raised "json.JSONDecodeError") := by
  constructor <;> intro h <;> (unfold main; simp only [h])

/-- Witness for the amended claim C4 at concrete environments. -/
theorem claim4_witness :
    main (mkDemoEnv ConfigFile.absent StateFile.absent true) = EngineResult.silentReturn ∧
    main (mkDemoEnv ConfigFile.malformed StateFile.absent true) =
      EngineResult.raised "json.JSONDecodeError" :=
  ⟨(claim4_amended_config_handling (mkDemoEnv ConfigFile.absent StateFile.absent true)).1 rfl,
   (claim4_amended_config_handling (mkDemoEnv ConfigFile.malformed StateFile.absent true)).2 rfl⟩

/-- Claim C5: for every loaded state whose status is neither COMPLETED nor FAILED (e.g. ACTIVE, or no status at all), an invocation is a complete no-op: no state write and no payload; being a pure function of the unchanged environment, a repeated invocation has the identical (empty) observable effect. -/
theorem claim5_active_noop (env : Env) (config : LoopConfig) (state : StateDict)
    (hc : env.configFs CONFIG_PATH = ConfigFile.parsed config)
    (hs : env.stateFs (stateFilePath config) = StateFile.parsed state)
    (h1 : dictGet state "status" ≠ some (Json.str "COMPLETED"))
    (h2 : dictGet state "status" ≠ some (Json.str "FAILED")) :
    main env = EngineResult.silentReturn ∧
    writesStateFile (main env) = false ∧ emitsPayload (main env) = false := by
  have hcore := transition_core_not_triggered env.cmdOk config state h1 h2
  have hmain : main env = EngineResult.silentReturn := by
    unfold main; simp only [hc, hs, hcore]
  exact ⟨hmain, by rw [hmain]; rfl, by rw [hmain]; rfl⟩

/-- Witness for claim C5 with an ACTIVE state. -/
theorem claim5_witness :
    main (mkDemoEnv (ConfigFile.parsed demoConfig) (StateFile.parsed demoActiveState) true) =
      EngineResult.silentReturn ∧
    writesStateFile (main (mkDemoEnv (ConfigFile.parsed demoConfig)
      (StateFile.parsed demoActiveState) true)) = false ∧
    emitsPayload (main (mkDemoEnv (ConfigFile.parsed demoConfig)
      (StateFile.parsed demoActiveState) true)) = false :=
  claim5_active_noop
    (mkDemoEnv (ConfigFile.parsed demoConfig) (StateFile.parsed demoActiveState) true)
    demoConfig demoActiveState rfl rfl
    (by simp [demoActiveState, dictGet]) (by simp [demoActiveState, dictGet])

/-- Claim C6: for every loaded state with status COMPLETED whose phase is not a member of the configured phases, the fallback index -1 makes the engine persist `phases[0]` as the next phase. -/
theorem claim6_unknown_phase_resets (env : Env) (config : LoopConfig) (state : StateDict)
    (q : String) (it : Int) (p0 : String) (rest : List String)
    (hc : env.configFs CONFIG_PATH = ConfigFile.parsed config)
    (hs : env.stateFs (stateFilePath config) = StateFile.parsed state)
    (hps : config.phases = p0 :: rest)
    (hstatus : dictGet state "status" = some (Json.str "COMPLETED"))
    (hphase : dictGet state "phase" = some (Json.str q))
    (hq : q ∉ config.phases)
    (hit : dictGet state "iteration" = some (Json.num it)) :
    ∃ st2 resp, main env = EngineResult.transition (stateFilePath config) st2 resp ∧
      dictGet st2 "phase" = some (Json.str p0) := by
  have hne : config.phases.isEmpty = false := by rw [hps]; rfl
  have hcore := transition_core_completed_unknown env.cmdOk config state q it hne hstatus
    hphase hq hit
  have hmain := main_eq_finish env config state _ _ hc hs hcore
  obtain ⟨resp, hfin⟩ :=
    finishTransition_shape env config (config.phases.getD 0 "")
      (dictSet state "iteration" (Json.num (it + 1)))
  refine ⟨_, resp, hmain.trans hfin, ?_⟩
  rw [dictGet_dictSet_ne _ _ _ _ (by decide), dictGet_dictSet_self]
  simp [hps]

/-- Witness for claim C6 at the concrete scenario of the spec: phases A/B and unknown phase UNKNOWN give next phase A. -/
theorem claim6_witness :
    ∃ st2 resp,
      main (mkDemoEnv (ConfigFile.parsed abConfig) (StateFile.parsed demoUnknownState) true) =
        EngineResult.transition (stateFilePath abConfig) st2 resp ∧
      dictGet st2 "phase" = some (Json.str "A") :=
  claim6_unknown_phase_resets
    (mkDemoEnv (ConfigFile.parsed abConfig) (StateFile.parsed demoUnknownState) true)
    abConfig demoUnknownState "UNKNOWN" 1 "A" ["B"] rfl rfl rfl rfl rfl (by decide) rfl

/-- Claim C7: every invocation that persists a new state record changes at most the `phase`, `status` and `iteration` keys; every other key of the loaded record (`history`, `metrics`, unknown extras) keeps exactly its loaded value. -/
theorem claim7_frame (env : Env) (config : LoopConfig) (state : StateDict)
    (path : String) (st2 : StateDict) (resp : Response)
    (hc : env.configFs CONFIG_PATH = ConfigFile.parsed config)
    (hs : env.stateFs (stateFilePath config) = StateFile.parsed state)
    (hmain : main env = EngineResult.transition path st2 resp)
    (k : String) (hk1 : k ≠ "phase") (hk2 : k ≠ "status") (hk3 : k ≠ "iteration") :
    dictGet st2 k = dictGet state k := by
  unfold main at hmain
  simp only [hc, hs] at hmain
  cases hcore : transition_core env.cmdOk config state with
  | notTriggered => rw [hcore] at hmain; cases hmain
  | noPhases => rw [hcore] at hmain; cases hmain
  | cleanupFailed => rw [hcore] at hmain; cases hmain
  | typeError => rw [hcore] at hmain; cases hmain
  | proceed np st1 =>
    rw [hcore] at hmain
    simp only [finishTransition] at hmain
    injection hmain with h1 h2 h3
    rw [← h2, dictGet_dictSet_ne _ _ _ _ hk2, dictGet_dictSet_ne _ _ _ _ hk1]
    exact transition_core_proceed_preserves env.cmdOk config state np st1 hcore k hk3

/-- Witness for claim C7: the `history` key of the persisted record equals the loaded one. -/
theorem claim7_witness :
    dictGet (dictSet (dictSet demoBumpedState "phase" (Json.str "PLAN")) "status"
      (Json.str "ACTIVE")) "history" = dictGet demoState "history" :=
  claim7_frame (mkDemoEnv (ConfigFile.parsed demoConfig) (StateFile.parsed demoState) true)
    demoConfig demoState (stateFilePath demoConfig)
    (dictSet (dictSet demoBumpedState "phase" (Json.str "PLAN")) "status" (Json.str "ACTIVE"))
    ⟨true, "deny",
      "[" ++ "PLAN" ++ " PHASE]\n\n" ++
        ("Error: Prompt file '" ++
            (promptsDirPath demoConfig ++ "/" ++ "PLAN".toLower ++ ".md") ++
          "' not found for phase " ++ "PLAN" ++ "."),
      "Transitioning to " ++ "PLAN" ++ " phase (Iteration " ++
        displayIteration (dictSet (dictSet demoBumpedState "phase" (Json.str "PLAN"))
          "status" (Json.str "ACTIVE")) ++ ")"⟩
    rfl rfl rfl "history" (by decide) (by decide) (by decide)

/-- Claim C8: when the prompt file resolved for the next phase does not exist, the transition still completes: the new state (next phase, status ACTIVE) is persisted, and the emitted payload carries the synthetic placeholder text of line 127, which names the missing prompt path and the phase. -/
theorem claim8_missing_prompt (env : Env) (config : LoopConfig) (state : StateDict)
    (np : String) (st1 : StateDict)
    (hc : env.configFs CONFIG_PATH = ConfigFile.parsed config)
    (hs : env.stateFs (stateFilePath config) = StateFile.parsed state)
    (hcore : transition_core env.cmdOk config state = CoreResult.proceed np st1)
    (hprompt : env.promptFs (promptsDirPath config ++ "/" ++ np.toLower ++ ".md") = none) :
    main env = EngineResult.transition (stateFilePath config)
      (dictSet (dictSet st1 "phase" (Json.str np)) "status" (Json.str "ACTIVE"))
      ⟨true, "deny",
        "[" ++ np ++ " PHASE]\n\n" ++
          ("Error: Prompt file '" ++ (promptsDirPath config ++ "/" ++ np.toLower ++ ".md") ++
            "' not found for phase " ++ np ++ "."),
        "Transitioning to " ++ np ++ " phase (Iteration " ++
          displayIteration (dictSet (dictSet st1 "phase" (Json.str np)) "status"
            (Json.str "ACTIVE")) ++ ")"⟩ ∧
    dictGet (dictSet (dictSet st1 "phase" (Json.str np)) "status" (Json.str "ACTIVE"))
      "phase" = some (Json.str np) ∧
    dictGet (dictSet (dictSet st1 "phase" (Json.str np)) "status" (Json.str "ACTIVE"))
      "status" = some (Json.str "ACTIVE") := by
  have hmain := main_eq_finish env config state np st1 hc hs hcore
  refine ⟨?_, ?_, ?_⟩
  · rw [hmain]
    simp only [finishTransition, hprompt]
  · rw [dictGet_dictSet_ne _ _ _ _ (by decide), dictGet_dictSet_self]
  · rw [dictGet_dictSet_self]

/-- Witness for claim C8: no prompt files exist, the transition completes with the placeholder text. -/
theorem claim8_witness :
    main (mkDemoEnv (ConfigFile.parsed demoConfig) (StateFile.parsed demoState) true) =
      EngineResult.transition (stateFilePath demoConfig)
        (dictSet (dictSet demoBumpedState "phase" (Json.str "PLAN")) "status"
          (Json.str "ACTIVE"))
        ⟨true, "deny",
          "[" ++ "PLAN" ++ " PHASE]\n\n" ++
            ("Error: Prompt file '" ++
                (promptsDirPath demoConfig ++ "/" ++ "PLAN".toLower ++ ".md") ++
              "' not found for phase " ++ "PLAN" ++ "."),
          "Transitioning to " ++ "PLAN" ++ " phase (Iteration " ++
            displayIteration (dictSet (dictSet demoBumpedState "phase" (Json.str "PLAN"))
              "status" (Json.str "ACTIVE")) ++ ")"⟩ ∧
    dictGet (dictSet (dictSet demoBumpedState "phase" (Json.str "PLAN")) "status"
      (Json.str "ACTIVE")) "phase" = some (Json.str "PLAN") ∧
    dictGet (dictSet (dictSet demoBumpedState "phase" (Json.str "PLAN")) "status"
      (Json.str "ACTIVE")) "status" = some (Json.str "ACTIVE") :=
  claim8_missing_prompt
    (mkDemoEnv (ConfigFile.parsed demoConfig) (StateFile.parsed demoState) true)
    demoConfig demoState "PLAN" demoBumpedState rfl rfl rfl rfl

/-- Counterexample to claim C9 as stated: two invocations differing only in `GEMINI_PROJECT_DIR` (unset versus `/proj`) resolve exactly the same paths and return the same result; the state planted at the override-resolved path `/proj/.gemini/ralph/state.json` is COMPLETED and would force a transition, yet the engine reads the working-directory-relative path, sees ACTIVE and does nothing. -/
theorem claim9_counterexample :
    main (overrideEnv (some "/proj")) = main (overrideEnv none) ∧
    main (overrideEnv (some "/proj")) = EngineResult.silentReturn :=
  ⟨rfl, rfl⟩

/-- Claim C9, amended: the engine reads the config and state paths from fixed conventional locations relative to the current working directory; line 33 reads `GEMINI_PROJECT_DIR` into `PROJECT_DIR` but never uses it, so the engine's entire behaviour is independent of that environment variable. -/
theorem claim9_amended_env_ignored (d1 d2 : Option String) (cf : String → ConfigFile)
    (sf : String → StateFile) (pf : String → Option String) (ok : String → Bool) :
    main ⟨d1, cf, sf, pf, ok⟩ = main ⟨d2, cf, sf, pf, ok⟩ := rfl

/-- Claim C10: if the loaded config's phases list is empty, an invocation with status COMPLETED or FAILED returns after printing the no-phases error, without reaching any index computation, modulo by the phase count, state write or payload emission. -/
theorem claim10_empty_phases (env : Env) (config : LoopConfig) (state : StateDict)
    (s : String)
    (hc : env.configFs CONFIG_PATH = ConfigFile.parsed config)
    (hs : env.stateFs (stateFilePath config) = StateFile.parsed state)
    (hp : config.phases = [])
    (hstatus : dictGet state "status" = some (Json.str s))
    (hs2 : s = "COMPLETED" ∨ s = "FAILED") :
    main env = EngineResult.errorReturn noPhasesMsg ∧
    writesStateFile (main env) = false ∧ emitsPayload (main env) = false := by
  have hcore := transition_core_no_phases env.cmdOk config state s hstatus hs2 hp
  have hmain : main env = EngineResult.errorReturn noPhasesMsg := by
    unfold main; simp only [hc, hs, hcore]
  exact ⟨hmain, by rw [hmain]; rfl, by rw [hmain]; rfl⟩

/-- Witness for claim C10 with an empty phases list and a COMPLETED state. -/
theorem claim10_witness :
    main (mkDemoEnv (ConfigFile.parsed emptyPhasesConfig) (StateFile.parsed demoState) true) =
      EngineResult.errorReturn noPhasesMsg ∧
    writesStateFile (main (mkDemoEnv (ConfigFile.parsed emptyPhasesConfig)
      (StateFile.parsed demoState) true)) = false ∧
    emitsPayload (main (mkDemoEnv (ConfigFile.parsed emptyPhasesConfig)
      (StateFile.parsed demoState) true)) = false :=
  claim10_empty_phases
    (mkDemoEnv (ConfigFile.parsed emptyPhasesConfig) (StateFile.parsed demoState) true)
    emptyPhasesConfig demoState "COMPLETED" rfl rfl rfl rfl (Or.inl rfl)

end Ralph
